import Mathlib

/-!
Verification of the authentication/session/audit core of the
appointmentBooking_BTS repository, as a shallow embedding in Lean 4.

The sources embedded here are:
  api/src/lib/auth.ts          (token context verification, password strength,
                                bearer extraction, token-data construction)
  api/src/lib/logger.ts        (trackFailedLogin, trackPasswordResetRequest,
                                severity classification, audit-event emission)
  api/src/lib/passwordBreach.ts (checkPasswordBreach, validatePasswordNotBreached)
  api/src/repos/auditLogRepo.ts (windowed counts over the audit log)
  api/src/repos/refreshTokenRepo.ts (refresh-token CRUD and rotation)
  api/src/repos/userRepo.ts    (users, password reset tokens, lockAccount)
  api/src/routes/auth.ts       (the HTTP handlers for login, forgot-password,
                                reset-password, validate, me, logout)

Modelling conventions:
  - Timestamps are Nat milliseconds (JavaScript Date.now()).
  - MongoDB collections are lists of documents; insertOne appends,
    updateOne updates the FIRST document matching the filter.
  - External effects (bcrypt, JWT decoding, SHA-1, fetch, randomness) are
    passed in as explicit function parameters or pre-drawn values.
  - Winston logging is modelled as returned lists of messages/events where a
    claim depends on it; the free-form `details` metadata map of audit
    entries is not modelled (no claim depends on its contents).
  - JavaScript string operations (toLowerCase, trim, split) are re-expressed
    as kernel-computable functions over the character list of a String.
-/

namespace BTS

/-- JavaScript String.prototype.toLowerCase restricted to the characters the
system actually stores (kernel-computable form of toLowerCase). -/
def lowerStr (s : String) : String :=
  ⟨s.data.map Char.toLower⟩

/-- JavaScript String.prototype.trim: strip whitespace from both ends. -/
def trimStr (s : String) : String :=
  ⟨((s.data.dropWhile Char.isWhitespace).reverse.dropWhile Char.isWhitespace).reverse⟩

/-- Auxiliary splitter over the character list; first argument is the
separator, second the remaining input, third the accumulated segment. -/
def splitOnCharAux (sep : Char) : List Char → List Char → List String
  | [], acc => [⟨acc.reverse⟩]
  | c :: rest, acc =>
    if c = sep then ⟨acc.reverse⟩ :: splitOnCharAux sep rest []
    else splitOnCharAux sep rest (c :: acc)

/-- JavaScript String.prototype.split with a single-character separator. -/
def splitOnChar (sep : Char) (s : String) : List String :=
  splitOnCharAux sep s.data []

/-- Decimal digits to a Nat, mirroring what parseInt(s, 10) yields on the
well-formed counts the breach API returns; none when not all digits. -/
def digitsToNat? (l : List Char) : Option Nat :=
  if l ≠ [] ∧ l.all Char.isDigit then
    some (l.foldl (fun n c => n * 10 + (c.toNat - 48)) 0)
  else none

/-- Severity levels of audit log entries (models/auditLog.ts SeverityLevel). -/
inductive SeverityLevel where
  | low
  | medium
  | high
  | critical
deriving DecidableEq, Repr

/-- Security event taxonomy (models/auditLog.ts SecurityEventType),
restricted to the events the verified handlers emit. -/
inductive SecurityEventType where
  | LOGIN_FAILED
  | LOGIN_SUCCESS
  | LOGIN_BLOCKED
  | ACCOUNT_LOCKED
  | REGISTRATION_SUCCESS
  | REGISTRATION_FAILED
  | PASSWORD_RESET_REQUESTED
  | PASSWORD_RESET_SUCCESS
  | PASSWORD_RESET_FAILED
  | SUSPICIOUS_ACTIVITY
  | TOKEN_VALIDATION_FAILED
deriving DecidableEq, Repr

/-- One audit log document (auditLogRepo.ts AuditLogDoc); the free-form
`details` map is not modelled. -/
structure AuditLogEntry where
  eventType : SecurityEventType
  severity : SeverityLevel
  userId : Option String
  email : Option String
  ipAddress : Option String
  userAgent : Option String
  timestamp : Nat
  resolved : Bool
deriving DecidableEq, Repr

/-- One user document (userRepo.ts UserDoc), restricted to the fields the
authentication core reads or writes. -/
structure UserDoc where
  id : String
  email : String
  fullName : String
  passwordHash : String
  emailVerified : Bool
  role : String
  locked : Bool
  lockReason : Option String
  lockedAt : Option Nat
  lastLogin : Option Nat
deriving DecidableEq, Repr

/-- One refresh token document (refreshTokenRepo.ts RefreshTokenDoc). -/
structure RefreshTokenDoc where
  id : Nat
  userId : String
  token : String
  expiresAt : Nat
  revoked : Bool
  revokedAt : Option Nat
  createdAt : Nat
  ipAddress : Option String
  userAgent : Option String
deriving DecidableEq, Repr

/-- Input for creating a refresh token (models/user.ts CreateRefreshTokenInput). -/
structure CreateRefreshTokenInput where
  userId : String
  token : String
  expiresAt : Nat
  ipAddress : Option String
  userAgent : Option String
deriving DecidableEq, Repr

/-- One password reset token document (userRepo.ts PasswordResetTokenDoc). -/
structure PasswordResetTokenDoc where
  id : Nat
  userId : String
  token : String
  expiresAt : Nat
  used : Bool
  createdAt : Nat
deriving DecidableEq, Repr

/-- The four persisted collections the authentication core touches. -/
structure ServerState where
  users : List UserDoc
  auditLog : List AuditLogEntry
  refreshTokens : List RefreshTokenDoc
  resetTokens : List PasswordResetTokenDoc
deriving DecidableEq, Repr

/-- MongoDB updateOne: apply f to the first element matching p. -/
def updateFirst {α : Type} (p : α → Bool) (f : α → α) : List α → List α
  | [] => []
  | x :: xs => if p x then f x :: xs else x :: updateFirst p f xs

/-- userRepo.findUserByEmail: findOne on the lowercased, trimmed email. -/
def findUserByEmail (users : List UserDoc) (email : String) : Option UserDoc :=
  users.find? (fun u => u.email = trimStr (lowerStr email))

/-- userRepo.findUserById. -/
def findUserById (users : List UserDoc) (id : String) : Option UserDoc :=
  users.find? (fun u => u.id = id)

/-- userRepo.lockAccount: set locked, lockReason, lockedAt on the user. -/
def lockAccount (users : List UserDoc) (userId reason : String) (now : Nat) : List UserDoc :=
  updateFirst (fun u => u.id = userId)
    (fun u => { u with locked := true, lockReason := some reason, lockedAt := some now })
    users

/-- userRepo.updatePassword: set passwordHash on the user. -/
def updatePassword (users : List UserDoc) (userId newPasswordHash : String) : List UserDoc :=
  updateFirst (fun u => u.id = userId)
    (fun u => { u with passwordHash := newPasswordHash })
    users

/-- userRepo.updateLastLogin. -/
def updateLastLogin (users : List UserDoc) (userId : String) (now : Nat) : List UserDoc :=
  updateFirst (fun u => u.id = userId)
    (fun u => { u with lastLogin := some now })
    users

/-- auditLogRepo.getFailedLoginAttempts: count LOGIN_FAILED entries for the
lowercased email with timestamp at least now minus the window. -/
def getFailedLoginAttempts (auditLog : List AuditLogEntry) (email : String)
    (sinceMinutes now : Nat) : Nat :=
  (auditLog.filter (fun e =>
    e.eventType = SecurityEventType.LOGIN_FAILED ∧
    e.email = some (lowerStr email) ∧
    now - sinceMinutes * 60 * 1000 ≤ e.timestamp)).length

/-- auditLogRepo.getFailedLoginAttemptsByIP. -/
def getFailedLoginAttemptsByIP (auditLog : List AuditLogEntry) (ipAddress : String)
    (sinceMinutes now : Nat) : Nat :=
  (auditLog.filter (fun e =>
    e.eventType = SecurityEventType.LOGIN_FAILED ∧
    e.ipAddress = some ipAddress ∧
    now - sinceMinutes * 60 * 1000 ≤ e.timestamp)).length

/-- auditLogRepo.getPasswordResetRequestsByEmail. -/
def getPasswordResetRequestsByEmail (auditLog : List AuditLogEntry) (email : String)
    (sinceMinutes now : Nat) : Nat :=
  (auditLog.filter (fun e =>
    e.eventType = SecurityEventType.PASSWORD_RESET_REQUESTED ∧
    e.email = some (lowerStr email) ∧
    now - sinceMinutes * 60 * 1000 ≤ e.timestamp)).length

/-- auditLogRepo.getPasswordResetRequestsByIP. -/
def getPasswordResetRequestsByIP (auditLog : List AuditLogEntry) (ipAddress : String)
    (sinceMinutes now : Nat) : Nat :=
  (auditLog.filter (fun e =>
    e.eventType = SecurityEventType.PASSWORD_RESET_REQUESTED ∧
    e.ipAddress = some ipAddress ∧
    now - sinceMinutes * 60 * 1000 ≤ e.timestamp)).length

/-- logger.logSecurityEvent restricted to its database effect: append one
audit entry (createAuditLog sets timestamp := now, resolved := false). -/
def logSecurityEvent (auditLog : List AuditLogEntry) (eventType : SecurityEventType)
    (severity : SeverityLevel) (userId email ipAddress userAgent : Option String)
    (now : Nat) : List AuditLogEntry :=
  auditLog ++ [{ eventType := eventType, severity := severity, userId := userId,
                 email := email, ipAddress := ipAddress, userAgent := userAgent,
                 timestamp := now, resolved := false }]

/-- Severity classification inside logger.trackFailedLogin, as a function of
the email-scoped and IP-scoped attempt counts including the current attempt. -/
def classifySeverity (totalAttempts ipTotalAttempts : Nat) : SeverityLevel :=
  if 5 ≤ totalAttempts ∨ 10 ≤ ipTotalAttempts then SeverityLevel.critical
  else if 3 ≤ totalAttempts ∨ 5 ≤ ipTotalAttempts then SeverityLevel.high
  else if 2 ≤ totalAttempts then SeverityLevel.medium
  else SeverityLevel.low

/-- Return shape of logger.trackFailedLogin. -/
structure FailedLoginCheck where
  blocked : Bool
  attemptsLeft : Option Nat
  accountLocked : Option Bool
deriving DecidableEq, Repr

/-- logger.trackFailedLogin: derive windowed counts from the audit log,
record LOGIN_FAILED with the classified severity, lock the account when a
userId was supplied and the 24-hour count reaches 10, otherwise soft-block
when the 15-minute email count reaches 5 or the IP count reaches 10. -/
def trackFailedLogin (st : ServerState) (email ipAddress userAgent : String)
    (userId : Option String) (now : Nat) : ServerState × FailedLoginCheck :=
  let shortTermAttempts := getFailedLoginAttempts st.auditLog email 15 now
  let longTermAttempts := getFailedLoginAttempts st.auditLog email 1440 now
  let ipAttempts := getFailedLoginAttemptsByIP st.auditLog ipAddress 15 now
  let totalAttempts := shortTermAttempts + 1
  let ipTotalAttempts := ipAttempts + 1
  let dailyAttempts := longTermAttempts + 1
  let severity := classifySeverity totalAttempts ipTotalAttempts
  let logAfterFail := logSecurityEvent st.auditLog SecurityEventType.LOGIN_FAILED severity
    none (some email) (some ipAddress) (some userAgent) now
  let st := { st with auditLog := logAfterFail }
  match userId with
  | some uid =>
    if 10 ≤ dailyAttempts then
      let lockedUsers := lockAccount st.users uid
        "Account locked after 10 failed login attempts in 24 hours. Please reset your password to unlock." now
      let logAfterLock := logSecurityEvent st.auditLog SecurityEventType.ACCOUNT_LOCKED
        SeverityLevel.critical (some uid) (some email) (some ipAddress) (some userAgent) now
      ({ st with users := lockedUsers, auditLog := logAfterLock },
       { blocked := true, attemptsLeft := none, accountLocked := some true })
    else
      if 5 ≤ totalAttempts ∨ 10 ≤ ipTotalAttempts then
        let logAfterBlock := logSecurityEvent st.auditLog SecurityEventType.LOGIN_BLOCKED
          SeverityLevel.critical none (some email) (some ipAddress) (some userAgent) now
        ({ st with auditLog := logAfterBlock },
         { blocked := true, attemptsLeft := none, accountLocked := none })
      else
        (st, { blocked := false, attemptsLeft := some (5 - totalAttempts), accountLocked := none })
  | none =>
    if 5 ≤ totalAttempts ∨ 10 ≤ ipTotalAttempts then
      let logAfterBlock := logSecurityEvent st.auditLog SecurityEventType.LOGIN_BLOCKED
        SeverityLevel.critical none (some email) (some ipAddress) (some userAgent) now
      ({ st with auditLog := logAfterBlock },
       { blocked := true, attemptsLeft := none, accountLocked := none })
    else
      (st, { blocked := false, attemptsLeft := some (5 - totalAttempts), accountLocked := none })

/-- logger.trackPasswordResetRequest: derive the 60-minute counts, record
PASSWORD_RESET_REQUESTED, hard-block above 3 per email or 5 per IP per hour
(with a SUSPICIOUS_ACTIVITY critical entry and a scope-naming reason), warn
with a SUSPICIOUS_ACTIVITY high entry at 2 per email or 3 per IP. The
userExists argument only feeds the unmodelled metadata map. -/
def trackPasswordResetRequest (st : ServerState) (email ipAddress userAgent : String)
    (_userExists : Bool) (now : Nat) : ServerState × (Bool × Option String) :=
  let emailResets := getPasswordResetRequestsByEmail st.auditLog email 60 now
  let ipResets := getPasswordResetRequestsByIP st.auditLog ipAddress 60 now
  let totalEmailResets := emailResets + 1
  let totalIpResets := ipResets + 1
  let severity :=
    if 3 ≤ totalEmailResets ∨ 5 ≤ totalIpResets then SeverityLevel.critical
    else if 2 ≤ totalEmailResets ∨ 3 ≤ totalIpResets then SeverityLevel.high
    else SeverityLevel.low
  let logAfterReq := logSecurityEvent st.auditLog SecurityEventType.PASSWORD_RESET_REQUESTED
    severity none (some email) (some ipAddress) (some userAgent) now
  let st := { st with auditLog := logAfterReq }
  if 3 < totalEmailResets ∨ 5 < totalIpResets then
    let reason :=
      if 3 < totalEmailResets then
        "Too many password reset requests for this email. Please try again in 1 hour."
      else
        "Too many password reset requests from this location. Please try again in 1 hour."
    let logAfterSusp := logSecurityEvent st.auditLog SecurityEventType.SUSPICIOUS_ACTIVITY
      SeverityLevel.critical none (some email) (some ipAddress) (some userAgent) now
    ({ st with auditLog := logAfterSusp }, (true, some reason))
  else
    if 2 ≤ totalEmailResets ∨ 3 ≤ totalIpResets then
      let logAfterWarn := logSecurityEvent st.auditLog SecurityEventType.SUSPICIOUS_ACTIVITY
        SeverityLevel.high none (some email) (some ipAddress) (some userAgent) now
      ({ st with auditLog := logAfterWarn }, (false, none))
    else
      (st, (false, none))

/-- JWT claim set (auth.ts JWTPayload); ipAddress and userAgent are
optional context-binding claims. -/
structure JWTPayload where
  userId : String
  email : String
  role : String
  ipAddress : Option String
  userAgent : Option String
deriving DecidableEq, Repr

/-- Mismatch detail of auth.ts verifyAccessTokenWithContext. -/
structure ContextMismatch where
  ipChanged : Bool
  userAgentChanged : Bool
  originalIp : Option String
  currentIp : Option String
  originalUserAgent : Option String
  currentUserAgent : Option String
deriving DecidableEq, Repr

/-- Result shape of auth.ts verifyAccessTokenWithContext. -/
structure ContextVerification where
  valid : Bool
  payload : Option JWTPayload
  mismatch : Option ContextMismatch
deriving DecidableEq, Repr

/-- auth.ts verifyAccessTokenWithContext. The signature/expiry/issuer/audience
verification performed by jwt.verify is abstracted as the decode parameter
(none models every verification failure). A payload whose ipAddress or
userAgent claim is absent, or is the empty string (falsy in JavaScript),
takes the legacy carve-out and is accepted without comparison. -/
def verifyAccessTokenWithContext (decode : String → Option JWTPayload)
    (token currentIpAddress currentUserAgent : String) : ContextVerification :=
  match decode token with
  | none => { valid := false, payload := none, mismatch := none }
  | some payload =>
    match payload.ipAddress, payload.userAgent with
    | some origIp, some origUa =>
      if origIp = "" ∨ origUa = "" then
        { valid := true, payload := some payload, mismatch := none }
      else
        let ipChanged := origIp ≠ currentIpAddress
        let userAgentChanged := origUa ≠ currentUserAgent
        if ipChanged ∨ userAgentChanged then
          { valid := false, payload := some payload,
            mismatch := some { ipChanged := ipChanged, userAgentChanged := userAgentChanged,
                               originalIp := some origIp, currentIp := some currentIpAddress,
                               originalUserAgent := some origUa,
                               currentUserAgent := some currentUserAgent } }
        else
          { valid := true, payload := some payload, mismatch := none }
    | _, _ => { valid := true, payload := some payload, mismatch := none }

/-- auth.ts extractTokenFromHeader: the header must split on a single space
into exactly Bearer followed by the token. -/
def extractTokenFromHeader (authHeader : Option String) : Option String :=
  match authHeader with
  | none => none
  | some h =>
    match splitOnChar ' ' h with
    | [scheme, tok] => if scheme = "Bearer" then some tok else none
    | _ => none

/-- auth.ts validatePasswordStrength: all failing rules reported together. -/
def validatePasswordStrength (password : String) : Bool × List String :=
  let errors :=
    (if password.data.length < 8 then ["Password must be at least 8 characters long"] else []) ++
    (if ¬ password.data.any Char.isUpper then ["Password must contain at least one uppercase letter"] else []) ++
    (if ¬ password.data.any Char.isLower then ["Password must contain at least one lowercase letter"] else []) ++
    (if ¬ password.data.any Char.isDigit then ["Password must contain at least one number"] else []) ++
    (if ¬ password.data.any (fun c => ¬ c.isAlphanum) then ["Password must contain at least one special character"] else [])
  (errors.isEmpty, errors)

/-- refreshTokenRepo.createRefreshToken: insertOne appends a document with
revoked := false; the fresh MongoDB id is modelled as the list length. -/
def createRefreshToken (store : List RefreshTokenDoc) (input : CreateRefreshTokenInput)
    (now : Nat) : List RefreshTokenDoc × RefreshTokenDoc :=
  let doc : RefreshTokenDoc :=
    { id := store.length, userId := input.userId, token := input.token,
      expiresAt := input.expiresAt, revoked := false, revokedAt := none,
      createdAt := now, ipAddress := input.ipAddress, userAgent := input.userAgent }
  (store ++ [doc], doc)

/-- refreshTokenRepo.findValidRefreshToken: findOne on token, revoked false,
expiresAt strictly in the future. -/
def findValidRefreshToken (store : List RefreshTokenDoc) (token : String)
    (now : Nat) : Option RefreshTokenDoc :=
  store.find? (fun d => d.token = token ∧ d.revoked = false ∧ now < d.expiresAt)

/-- refreshTokenRepo.revokeRefreshToken: updateOne on the token filter alone,
setting revoked and revokedAt on the first match. -/
def revokeRefreshToken (store : List RefreshTokenDoc) (token : String)
    (now : Nat) : List RefreshTokenDoc :=
  updateFirst (fun d => d.token = token)
    (fun d => { d with revoked := true, revokedAt := some now }) store

/-- refreshTokenRepo.rotateRefreshToken: find the old token among the valid
ones, return null without touching the store when absent, otherwise revoke
it and insert the replacement. -/
def rotateRefreshToken (store : List RefreshTokenDoc) (oldToken : String)
    (newTokenData : CreateRefreshTokenInput) (now : Nat) :
    List RefreshTokenDoc × Option RefreshTokenDoc :=
  match findValidRefreshToken store oldToken now with
  | none => (store, none)
  | some _ =>
    let store := revokeRefreshToken store oldToken now
    let (store, newDoc) := createRefreshToken store newTokenData now
    (store, some newDoc)

/-- Interleaved execution of two concurrent rotateRefreshToken calls on the
same oldToken, under the schedule find1, find2, revoke1, create1, revoke2,
create2: both reads observe the initial store before either write lands.
Each thread runs exactly the statements of rotateRefreshToken. -/
def rotateRefreshTokenTwoInterleaved (store : List RefreshTokenDoc) (oldToken : String)
    (d1 d2 : CreateRefreshTokenInput) (now : Nat) :
    List RefreshTokenDoc × Option RefreshTokenDoc × Option RefreshTokenDoc :=
  let found1 := findValidRefreshToken store oldToken now
  let found2 := findValidRefreshToken store oldToken now
  let step1 :=
    match found1 with
    | none => (store, (none : Option RefreshTokenDoc))
    | some _ =>
      let s := revokeRefreshToken store oldToken now
      let (s, nd) := createRefreshToken s d1 now
      (s, some nd)
  let step2 :=
    match found2 with
    | none => (step1.1, (none : Option RefreshTokenDoc))
    | some _ =>
      let s := revokeRefreshToken step1.1 oldToken now
      let (s, nd) := createRefreshToken s d2 now
      (s, some nd)
  (step2.1, step1.2, step2.2)

/-- userRepo.createPasswordResetToken: insertOne with used := false. -/
def createPasswordResetToken (store : List PasswordResetTokenDoc)
    (userId token : String) (expiresAt now : Nat) :
    List PasswordResetTokenDoc × PasswordResetTokenDoc :=
  let doc : PasswordResetTokenDoc :=
    { id := store.length, userId := userId, token := token,
      expiresAt := expiresAt, used := false, createdAt := now }
  (store ++ [doc], doc)

/-- userRepo.findPasswordResetToken: findOne on token with used false. -/
def findPasswordResetToken (store : List PasswordResetTokenDoc)
    (token : String) : Option PasswordResetTokenDoc :=
  store.find? (fun d => d.token = token ∧ d.used = false)

/-- userRepo.markTokenAsUsed: updateOne on the id, setting used. -/
def markTokenAsUsed (store : List PasswordResetTokenDoc) (tokenId : Nat) :
    List PasswordResetTokenDoc :=
  updateFirst (fun d => d.id = tokenId) (fun d => { d with used := true }) store

/-- Outcome of the HTTP fetch against the range endpoint of the breach
reputation service: an OK body, a non-OK status, or a thrown network error. -/
inductive FetchResult where
  | ok (body : String)
  | httpError (status : Nat)
  | networkError
deriving DecidableEq, Repr

/-- Return shape of passwordBreach.checkPasswordBreach. -/
structure BreachCheckResult where
  breached : Bool
  count : Nat
  error : Option String
deriving DecidableEq, Repr

/-- The response-body scan loop of checkPasswordBreach: each line splits on a
colon into hash-suffix and count; a colon-free line equal to the wanted
suffix makes the JavaScript destructuring yield undefined for the count and
the subsequent trim() throw (propagated as Except.error to the catch). -/
def scanBreachLines (sfx : String) : List String → Except String (Option Nat)
  | [] => Except.ok none
  | line :: rest =>
    match splitOnChar ':' line with
    | [h] => if h = sfx then Except.error "TypeError" else scanBreachLines sfx rest
    | h :: c :: _ =>
      if h = sfx then Except.ok (some ((digitsToNat? (trimStr c).data).getD 0))
      else scanBreachLines sfx rest
    | [] => scanBreachLines sfx rest

/-- passwordBreach.checkPasswordBreach: hash (abstracted as the sha1
parameter, already upper-hex), send the first five characters of the digest
(the fetch parameter takes that prefix), match the remainder locally.
Non-OK responses and thrown errors report breached false with an error
marker; the second component collects the Winston log messages. -/
def checkPasswordBreach (sha1 : String → String) (fetch : String → FetchResult)
    (password : String) : BreachCheckResult × List String :=
  let hash := sha1 password
  let pfx : String := ⟨hash.data.take 5⟩
  let sfx : String := ⟨hash.data.drop 5⟩
  match fetch pfx with
  | FetchResult.httpError _ =>
    ({ breached := false, count := 0, error := some "Unable to verify password breach status" },
     ["HaveIBeenPwned API error"])
  | FetchResult.networkError =>
    ({ breached := false, count := 0, error := some "Unable to verify password breach status" },
     ["Error checking password breach"])
  | FetchResult.ok body =>
    match scanBreachLines sfx (splitOnChar '\n' body) with
    | Except.error _ =>
      ({ breached := false, count := 0, error := some "Unable to verify password breach status" },
       ["Error checking password breach"])
    | Except.ok (some count) =>
      ({ breached := true, count := count, error := none },
       ["Password found in breach database"])
    | Except.ok none =>
      ({ breached := false, count := 0, error := none }, [])

/-- Return shape of passwordBreach.validatePasswordNotBreached. -/
structure BreachValidation where
  valid : Bool
  error : Option String
  breachCount : Option Nat
deriving DecidableEq, Repr

/-- passwordBreach.validatePasswordNotBreached: an errored check allows the
password (fail open); a breach at or above the threshold rejects it. -/
def validatePasswordNotBreached (sha1 : String → String) (fetch : String → FetchResult)
    (password : String) (threshold : Nat) : BreachValidation × List String :=
  let result := checkPasswordBreach sha1 fetch password
  if result.1.error.isSome then
    ({ valid := true, error := none, breachCount := none }, result.2)
  else if result.1.breached ∧ threshold ≤ result.1.count then
    ({ valid := false,
       error := some "This password has been exposed in data breaches. Please choose a different password.",
       breachCount := some result.1.count }, result.2)
  else
    ({ valid := true, error := none, breachCount := none }, result.2)

/-- Responses of the POST /auth/login handler. -/
inductive LoginResponse where
  | missingEmail
  | missingPassword
  | invalidCredentials
  | tooManyAttempts
  | lockedAccount (reason : String)
  | ok (userId : String)
deriving DecidableEq, Repr

/-- POST /auth/login (routes/auth.ts): field validation, user lookup, locked
short-circuit, bcrypt comparison (abstracted as verify), failure tracking
WITHOUT a userId argument (the route passes only email, req, reason), token
issuance on success. freshRefreshToken is the pre-drawn random token value;
its expiry is now plus seven days (createRefreshTokenData). -/
def loginHandler (verify : String → String → Bool) (st : ServerState)
    (email password ipAddress userAgent freshRefreshToken : String) (now : Nat) :
    ServerState × LoginResponse :=
  if trimStr email = "" then (st, LoginResponse.missingEmail)
  else if password = "" then (st, LoginResponse.missingPassword)
  else
    match findUserByEmail st.users email with
    | none =>
      let r := trackFailedLogin st email ipAddress userAgent none now
      if r.2.blocked then (r.1, LoginResponse.tooManyAttempts)
      else (r.1, LoginResponse.invalidCredentials)
    | some user =>
      if user.locked then
        let reason := user.lockReason.getD "Account locked due to security concerns"
        let logAfterSusp := logSecurityEvent st.auditLog SecurityEventType.SUSPICIOUS_ACTIVITY
          SeverityLevel.high none none (some ipAddress) (some userAgent) now
        ({ st with auditLog := logAfterSusp }, LoginResponse.lockedAccount reason)
      else if verify password user.passwordHash then
        let logAfterSuccess := logSecurityEvent st.auditLog SecurityEventType.LOGIN_SUCCESS
          SeverityLevel.low (some user.id) (some user.email) (some ipAddress) (some userAgent) now
        let users := updateLastLogin st.users user.id now
        let rts := (createRefreshToken st.refreshTokens
          { userId := user.id, token := freshRefreshToken,
            expiresAt := now + 7 * 24 * 60 * 60 * 1000,
            ipAddress := some ipAddress, userAgent := some userAgent } now).1
        ({ st with auditLog := logAfterSuccess, users := users, refreshTokens := rts },
         LoginResponse.ok user.id)
      else
        let r := trackFailedLogin st email ipAddress userAgent none now
        if r.2.blocked then (r.1, LoginResponse.tooManyAttempts)
        else (r.1, LoginResponse.invalidCredentials)

/-- Responses of the POST /auth/forgot-password handler. -/
inductive ForgotPasswordResponse where
  | missingEmail
  | rateLimited (reason : String)
  | ok (message : String)
deriving DecidableEq, Repr

/-- Outcome of the POST /auth/forgot-password handler: new state, response,
and whether a reset email was sent. -/
structure ForgotPasswordOutcome where
  state : ServerState
  response : ForgotPasswordResponse
  emailSent : Bool
deriving DecidableEq, Repr

/-- POST /auth/forgot-password (routes/auth.ts): look the user up, run the
reset-request abuse tracker, 429 when blocked, otherwise create a reset
token and send the email only when the user exists, and always answer the
same generic success message. freshResetToken is the pre-drawn random token;
its expiry is now plus one hour (createPasswordResetTokenData). -/
def forgotPasswordHandler (st : ServerState)
    (email ipAddress userAgent freshResetToken : String) (now : Nat) :
    ForgotPasswordOutcome :=
  if trimStr email = "" then ⟨st, ForgotPasswordResponse.missingEmail, false⟩
  else
    let user := findUserByEmail st.users email
    let r := trackPasswordResetRequest st email ipAddress userAgent user.isSome now
    if r.2.1 then
      ⟨r.1, ForgotPasswordResponse.rateLimited (r.2.2.getD "Too many password reset requests"), false⟩
    else
      match user with
      | some u =>
        let rts := (createPasswordResetToken r.1.resetTokens u.id freshResetToken
          (now + 60 * 60 * 1000) now).1
        ⟨{ r.1 with resetTokens := rts },
         ForgotPasswordResponse.ok "If an account exists with this email, a password reset link has been sent",
         true⟩
      | none =>
        ⟨r.1,
         ForgotPasswordResponse.ok "If an account exists with this email, a password reset link has been sent",
         false⟩

/-- Responses of the POST /auth/reset-password handler. -/
inductive ResetPasswordResponse where
  | missingToken
  | missingPassword
  | weakPassword (errors : List String)
  | breachedPassword (message : String)
  | invalidToken
  | expiredToken
  | ok
deriving DecidableEq, Repr

/-- POST /auth/reset-password (routes/auth.ts): field validation, strength
and breach checks, token lookup among unused tokens, expiry check, password
update, marking the token used, and audit logging of the outcome. -/
def resetPasswordHandler (sha1 : String → String) (fetch : String → FetchResult)
    (hash : String → String) (st : ServerState)
    (token password ipAddress userAgent : String) (now : Nat) :
    ServerState × ResetPasswordResponse :=
  if token = "" then (st, ResetPasswordResponse.missingToken)
  else if password = "" then (st, ResetPasswordResponse.missingPassword)
  else
    let strength := validatePasswordStrength password
    if strength.1 = false then (st, ResetPasswordResponse.weakPassword strength.2)
    else
      let breach := (validatePasswordNotBreached sha1 fetch password 1).1
      if breach.valid = false then
        (st, ResetPasswordResponse.breachedPassword
          (breach.error.getD "Password has been compromised in a data breach"))
      else
        match findPasswordResetToken st.resetTokens token with
        | none =>
          let logAfter := logSecurityEvent st.auditLog SecurityEventType.PASSWORD_RESET_FAILED
            SeverityLevel.high none none (some ipAddress) (some userAgent) now
          ({ st with auditLog := logAfter }, ResetPasswordResponse.invalidToken)
        | some resetToken =>
          if resetToken.expiresAt < now then
            let logAfter := logSecurityEvent st.auditLog SecurityEventType.PASSWORD_RESET_FAILED
              SeverityLevel.high (some resetToken.userId) none (some ipAddress) (some userAgent) now
            ({ st with auditLog := logAfter }, ResetPasswordResponse.expiredToken)
          else
            let user := findUserById st.users resetToken.userId
            let users := updatePassword st.users resetToken.userId (hash password)
            let rts := markTokenAsUsed st.resetTokens resetToken.id
            let logAfter := logSecurityEvent st.auditLog SecurityEventType.PASSWORD_RESET_SUCCESS
              SeverityLevel.medium (some resetToken.userId) (user.map (fun u => u.email))
              (some ipAddress) (some userAgent) now
            ({ st with users := users, resetTokens := rts, auditLog := logAfter },
             ResetPasswordResponse.ok)

/-- Response of the bearer-authenticated GET handlers. -/
inductive HandlerResponse where
  | err (status : Nat) (message : String)
  | okUser (userId : String)
deriving DecidableEq, Repr

/-- GET /auth/validate (routes/auth.ts): the response together with the
audit events the handler records (event type and severity). -/
def validateHandler (decode : String → Option JWTPayload) (users : List UserDoc)
    (authHeader : Option String) (ipAddress userAgent : String) :
    HandlerResponse × List (SecurityEventType × SeverityLevel) :=
  match extractTokenFromHeader authHeader with
  | none =>
    (HandlerResponse.err 400 "Authorization token is required",
     [(SecurityEventType.TOKEN_VALIDATION_FAILED, SeverityLevel.medium)])
  | some token =>
    let verification := verifyAccessTokenWithContext decode token ipAddress userAgent
    match verification.valid, verification.payload with
    | true, some payload =>
      match findUserById users payload.userId with
      | none =>
        (HandlerResponse.err 404 "User not found",
         [(SecurityEventType.TOKEN_VALIDATION_FAILED, SeverityLevel.medium)])
      | some _ => (HandlerResponse.okUser payload.userId, [])
    | _, _ =>
      match verification.mismatch with
      | some _ =>
        (HandlerResponse.err 401 "Session hijacking detected. Please log in again.",
         [(SecurityEventType.SUSPICIOUS_ACTIVITY, SeverityLevel.high)])
      | none =>
        (HandlerResponse.err 401 "Invalid or expired token",
         [(SecurityEventType.TOKEN_VALIDATION_FAILED, SeverityLevel.medium)])

/-- GET /auth/me (routes/auth.ts): same verification pipeline, but the
handler records no TOKEN_VALIDATION_FAILED audit entry on any path; only
the hijack branch records SUSPICIOUS_ACTIVITY. -/
def meHandler (decode : String → Option JWTPayload) (users : List UserDoc)
    (authHeader : Option String) (ipAddress userAgent : String) :
    HandlerResponse × List (SecurityEventType × SeverityLevel) :=
  match extractTokenFromHeader authHeader with
  | none => (HandlerResponse.err 401 "Authentication required", [])
  | some token =>
    let verification := verifyAccessTokenWithContext decode token ipAddress userAgent
    match verification.valid, verification.payload with
    | true, some payload =>
      match findUserById users payload.userId with
      | none => (HandlerResponse.err 404 "User not found", [])
      | some _ => (HandlerResponse.okUser payload.userId, [])
    | _, _ =>
      match verification.mismatch with
      | some _ =>
        (HandlerResponse.err 401 "Session hijacking detected. Please log in again.",
         [(SecurityEventType.SUSPICIOUS_ACTIVITY, SeverityLevel.high)])
      | none => (HandlerResponse.err 401 "Invalid or expired token", [])

/-- Responses of the POST /auth/logout handler. -/
inductive LogoutResponse where
  | missingToken
  | ok (message : String)
deriving DecidableEq, Repr

/-- POST /auth/logout (routes/auth.ts): any non-empty refresh token string is
accepted; revokeRefreshToken runs unconditionally and the handler answers
success regardless of whether the token ever existed. -/
def logoutHandler (st : ServerState) (refreshToken : Option String) (now : Nat) :
    ServerState × LogoutResponse :=
  match refreshToken with
  | none => (st, LogoutResponse.missingToken)
  | some t =>
    if t = "" then (st, LogoutResponse.missingToken)
    else
      ({ st with refreshTokens := revokeRefreshToken st.refreshTokens t now },
       LogoutResponse.ok "Logged out successfully")

/-- A concrete LOGIN_FAILED audit entry used by several scenario theorems. -/
def aliceFailEntry (t : Nat) : AuditLogEntry :=
  { eventType := SecurityEventType.LOGIN_FAILED, severity := SeverityLevel.low,
    userId := none, email := some "alice@example.com", ipAddress := some "8.8.8.8",
    userAgent := some "ua", timestamp := t, resolved := false }

/-- A concrete unlocked user record used by several scenario theorems. -/
def aliceUser : UserDoc :=
  { id := "u1", email := "alice@example.com", fullName := "Alice",
    passwordHash := "pw", emailVerified := false, role := "customer",
    locked := false, lockReason := none, lockedAt := none, lastLogin := none }

/-- A concrete live refresh token document used by scenario theorems. -/
def tokenDocT : RefreshTokenDoc :=
  { id := 0, userId := "u1", token := "T", expiresAt := 1000, revoked := false,
    revokedAt := none, createdAt := 0, ipAddress := none, userAgent := none }

/-- A concrete LOGIN_FAILED audit entry for a second account, used by the
soft-block scenario theorems. -/
def eveFailEntry (t : Nat) : AuditLogEntry :=
  { eventType := SecurityEventType.LOGIN_FAILED, severity := SeverityLevel.low,
    userId := none, email := some "eve@example.com", ipAddress := some "9.9.9.9",
    userAgent := some "ua", timestamp := t, resolved := false }

/-- A concrete second unlocked user record, used by the soft-block scenario
theorems. -/
def eveUser : UserDoc :=
  { id := "u2", email := "eve@example.com", fullName := "Eve",
    passwordHash := "pw", emailVerified := false, role := "customer",
    locked := false, lockReason := none, lockedAt := none, lastLogin := none }

/-- If q-satisfaction implies matching the update filter p, at most one
element of the list matches p, and the update f destroys q, then no element
satisfies q after updateFirst (MongoDB updateOne) runs. -/
theorem updateFirst_not_sat {α : Type} (p q : α → Bool) (f : α → α)
    (hf : ∀ x, q (f x) = false) :
    ∀ l : List α, (∀ x ∈ l, q x = true → p x = true) →
      (l.filter p).length ≤ 1 →
      ∀ y ∈ updateFirst p f l, q y = false := by
  intro l
  induction l with
  | nil => intro _ _ y hy; simp [updateFirst] at hy
  | cons x xs ih =>
    intro hqp hcount y hy
    by_cases hpx : p x = true
    · rw [updateFirst, if_pos hpx] at hy
      rcases List.mem_cons.mp hy with rfl | hmem
      · exact hf x
      · cases hq : q y with
        | false => rfl
        | true =>
          exfalso
          have hpy : p y = true := hqp y (List.mem_cons_of_mem x hmem) hq
          have h1 : y ∈ xs.filter p := List.mem_filter.mpr ⟨hmem, hpy⟩
          rw [List.filter_cons, if_pos hpx, List.length_cons] at hcount
          have h2 : 0 < (xs.filter p).length :=
            List.length_pos.mpr (List.ne_nil_of_mem h1)
          omega
    · rw [updateFirst, if_neg hpx] at hy
      rcases List.mem_cons.mp hy with rfl | hmem
      · cases hq : q y with
        | false => rfl
        | true => exact absurd (hqp y (List.mem_cons_self y xs) hq) hpx
      · rw [List.filter_cons, if_neg hpx] at hcount
        exact ih (fun z hz => hqp z (List.mem_cons_of_mem x hz)) hcount y hmem

/-- A list whose p-filter has at most one element contains at most one
p-satisfying member. -/
theorem filter_le_one_unique {α : Type} (p : α → Bool) (l : List α)
    (h : (l.filter p).length ≤ 1) {a b : α} (ha : a ∈ l) (hb : b ∈ l)
    (hpa : p a = true) (hpb : p b = true) : a = b := by
  have ha2 : a ∈ l.filter p := List.mem_filter.mpr ⟨ha, hpa⟩
  have hb2 : b ∈ l.filter p := List.mem_filter.mpr ⟨hb, hpb⟩
  cases hfl : l.filter p with
  | nil => rw [hfl] at ha2; simp at ha2
  | cons c cs =>
    cases cs with
    | nil =>
      rw [hfl] at ha2 hb2
      simp at ha2 hb2
      rw [ha2, hb2]
    | cons d ds =>
      rw [hfl, List.length_cons, List.length_cons] at h
      omega

/-- updateFirst is the identity when nothing matches the filter. -/
theorem updateFirst_no_match {α : Type} (p : α → Bool) (f : α → α) :
    ∀ l : List α, (∀ x ∈ l, p x = false) → updateFirst p f l = l := by
  intro l
  induction l with
  | nil => intro _; rfl
  | cons x xs ih =>
    intro hnone
    rw [updateFirst, if_neg (by simp [hnone x (List.mem_cons_self x xs)]),
      ih (fun z hz => hnone z (List.mem_cons_of_mem x hz))]

/-- updateFirst is idempotent when the update preserves the filter outcome
and is itself idempotent. -/
theorem updateFirst_idem {α : Type} (p : α → Bool) (f : α → α)
    (hp : ∀ x, p (f x) = p x) (hff : ∀ x, f (f x) = f x) :
    ∀ l : List α, updateFirst p f (updateFirst p f l) = updateFirst p f l := by
  intro l
  induction l with
  | nil => rfl
  | cons x xs ih =>
    by_cases hpx : p x = true
    · rw [updateFirst, if_pos hpx, updateFirst, if_pos (by rw [hp x]; exact hpx), hff]
    · rw [updateFirst, if_neg hpx, updateFirst, if_neg hpx, ih]

/-- C8: the LOGIN_FAILED severity is the ordered classification critical at
5 email-scoped or 10 IP-scoped attempts, high at 3 email-scoped or 5
IP-scoped, medium at 2 email-scoped, low below both residual thresholds
(counts include the current attempt); and three consecutive failures for
one email from a clean log are recorded with severities low, medium, high. -/
theorem C8_loginFailed_severity_classification :
    (∀ totalAttempts ipTotalAttempts : Nat,
      (classifySeverity totalAttempts ipTotalAttempts = SeverityLevel.critical ↔
        (5 ≤ totalAttempts ∨ 10 ≤ ipTotalAttempts)) ∧
      (classifySeverity totalAttempts ipTotalAttempts = SeverityLevel.high ↔
        (¬(5 ≤ totalAttempts ∨ 10 ≤ ipTotalAttempts) ∧ (3 ≤ totalAttempts ∨ 5 ≤ ipTotalAttempts))) ∧
      (classifySeverity totalAttempts ipTotalAttempts = SeverityLevel.medium ↔
        (¬(5 ≤ totalAttempts ∨ 10 ≤ ipTotalAttempts) ∧
         ¬(3 ≤ totalAttempts ∨ 5 ≤ ipTotalAttempts) ∧ 2 ≤ totalAttempts)) ∧
      (classifySeverity totalAttempts ipTotalAttempts = SeverityLevel.low ↔
        (totalAttempts < 2 ∧ ipTotalAttempts < 5))) ∧
    ((trackFailedLogin (trackFailedLogin (trackFailedLogin ⟨[aliceUser], [], [], []⟩
        "bob@example.com" "1.2.3.4" "ua" none 1000).1
        "bob@example.com" "1.2.3.4" "ua" none 2000).1
        "bob@example.com" "1.2.3.4" "ua" none 3000).1.auditLog.map
          (fun e => e.severity) =
      [SeverityLevel.low, SeverityLevel.medium, SeverityLevel.high]) := by
  constructor
  · intro totalAttempts ipTotalAttempts
    refine ⟨?_, ?_, ?_, ?_⟩ <;>
      · unfold classifySeverity
        split_ifs with h1 h2 h3 <;> simp_all <;> omega
  · decide

/-- C4: for a token whose underlying verification succeeds with payload p,
the context-aware verification accepts without comparison when the embedded
IP or user-agent claim is absent; when both are embedded (and non-empty),
it is invalid exactly when the embedded IP differs from the current IP or
the embedded user-agent differs from the current one, and in the mismatch
case it returns the structured detail naming which fields changed with the
original and current values. -/
theorem C4_context_binding (decode : String → Option JWTPayload)
    (token currentIp currentUa : String) (p : JWTPayload)
    (hdec : decode token = some p) :
    ((p.ipAddress = none ∨ p.userAgent = none) →
      verifyAccessTokenWithContext decode token currentIp currentUa =
        { valid := true, payload := some p, mismatch := none }) ∧
    (∀ a b : String, p.ipAddress = some a → p.userAgent = some b →
      a ≠ "" → b ≠ "" →
      (((verifyAccessTokenWithContext decode token currentIp currentUa).valid = false) ↔
        (a ≠ currentIp ∨ b ≠ currentUa)) ∧
      ((a = currentIp ∧ b = currentUa) →
        verifyAccessTokenWithContext decode token currentIp currentUa =
          { valid := true, payload := some p, mismatch := none }) ∧
      ((a ≠ currentIp ∨ b ≠ currentUa) →
        verifyAccessTokenWithContext decode token currentIp currentUa =
          { valid := false, payload := some p,
            mismatch := some
              { ipChanged := decide (a ≠ currentIp),
                userAgentChanged := decide (b ≠ currentUa),
                originalIp := some a, currentIp := some currentIp,
                originalUserAgent := some b, currentUserAgent := some currentUa } })) := by
  constructor
  · intro h
    cases hip : p.ipAddress with
    | none => simp [verifyAccessTokenWithContext, hdec, hip]
    | some a =>
      cases hua : p.userAgent with
      | none => simp [verifyAccessTokenWithContext, hdec, hip, hua]
      | some b =>
        rcases h with h | h
        · rw [hip] at h; exact absurd h (by simp)
        · rw [hua] at h; exact absurd h (by simp)
  · intro a b hpa hpb ha hb
    have hne : ¬(a = "" ∨ b = "") := by
      rintro (h | h)
      · exact ha h
      · exact hb h
    by_cases hc : a ≠ currentIp ∨ b ≠ currentUa
    · refine ⟨?_, ?_, ?_⟩
      · simp only [verifyAccessTokenWithContext, hdec, hpa, hpb]
        rw [if_neg hne, if_pos hc]
        simp [hc]
      · rintro ⟨h1, h2⟩
        rcases hc with h | h
        · exact absurd h1 h
        · exact absurd h2 h
      · intro _
        simp only [verifyAccessTokenWithContext, hdec, hpa, hpb]
        rw [if_neg hne, if_pos hc]
    · push_neg at hc
      refine ⟨?_, ?_, ?_⟩
      · simp only [verifyAccessTokenWithContext, hdec, hpa, hpb]
        rw [if_neg hne, if_neg (by push_neg; exact hc)]
        constructor
        · intro h; exact absurd h (by simp)
        · rintro (h | h)
          · exact absurd hc.1 h
          · exact absurd hc.2 h
      · intro _
        simp only [verifyAccessTokenWithContext, hdec, hpa, hpb]
        rw [if_neg hne, if_neg (by push_neg; exact hc)]
      · rintro (h | h)
        · exact absurd hc.1 h
        · exact absurd hc.2 h

/-- C4 witness: a legacy payload without context claims is accepted, and a
fully bound payload presented from a different IP is rejected with detail. -/
theorem C4_context_binding_witness :
    ((({ userId := "u1", email := "a@b.c", role := "customer",
         ipAddress := none, userAgent := none } : JWTPayload).ipAddress = none ∨
      ({ userId := "u1", email := "a@b.c", role := "customer",
         ipAddress := none, userAgent := none } : JWTPayload).userAgent = none) →
      verifyAccessTokenWithContext
        (fun _ => some { userId := "u1", email := "a@b.c", role := "customer",
                         ipAddress := none, userAgent := none }) "tok" "2.2.2.2" "ua2" =
        { valid := true,
          payload := some { userId := "u1", email := "a@b.c", role := "customer",
                            ipAddress := none, userAgent := none },
          mismatch := none }) ∧
    (∀ a b : String,
      ({ userId := "u1", email := "a@b.c", role := "customer",
         ipAddress := some "1.1.1.1", userAgent := some "ua1" } : JWTPayload).ipAddress = some a →
      ({ userId := "u1", email := "a@b.c", role := "customer",
         ipAddress := some "1.1.1.1", userAgent := some "ua1" } : JWTPayload).userAgent = some b →
      a ≠ "" → b ≠ "" →
      (((verifyAccessTokenWithContext
          (fun _ => some { userId := "u1", email := "a@b.c", role := "customer",
                           ipAddress := some "1.1.1.1", userAgent := some "ua1" })
          "tok" "2.2.2.2" "ua1").valid = false) ↔ (a ≠ "2.2.2.2" ∨ b ≠ "ua1")) ∧
      ((a = "2.2.2.2" ∧ b = "ua1") →
        verifyAccessTokenWithContext
          (fun _ => some { userId := "u1", email := "a@b.c", role := "customer",
                           ipAddress := some "1.1.1.1", userAgent := some "ua1" })
          "tok" "2.2.2.2" "ua1" =
          { valid := true,
            payload := some { userId := "u1", email := "a@b.c", role := "customer",
                              ipAddress := some "1.1.1.1", userAgent := some "ua1" },
            mismatch := none }) ∧
      ((a ≠ "2.2.2.2" ∨ b ≠ "ua1") →
        verifyAccessTokenWithContext
          (fun _ => some { userId := "u1", email := "a@b.c", role := "customer",
                           ipAddress := some "1.1.1.1", userAgent := some "ua1" })
          "tok" "2.2.2.2" "ua1" =
          { valid := false,
            payload := some { userId := "u1", email := "a@b.c", role := "customer",
                              ipAddress := some "1.1.1.1", userAgent := some "ua1" },
            mismatch := some
              { ipChanged := decide (a ≠ "2.2.2.2"),
                userAgentChanged := decide (b ≠ "ua1"),
                originalIp := some a, currentIp := some "2.2.2.2",
                originalUserAgent := some b, currentUserAgent := some "ua1" } })) :=
  C4_context_binding
    (fun _ => some { userId := "u1", email := "a@b.c", role := "customer",
                     ipAddress := none, userAgent := none }) "tok" "2.2.2.2" "ua2" _ rfl
    |>.1 |> fun h1 =>
  ⟨h1, (C4_context_binding
    (fun _ => some { userId := "u1", email := "a@b.c", role := "customer",
                     ipAddress := some "1.1.1.1", userAgent := some "ua1" }) "tok" "2.2.2.2" "ua1" _ rfl).2⟩

/-- C6: when the external reputation lookup returns a non-OK response or
throws, checkPasswordBreach reports breached false with an error marker and
logs the failure, and validatePasswordNotBreached then returns valid true
for every threshold, so the password is treated as not breached. -/
theorem C6_breach_check_fails_open (sha1 : String → String)
    (fetch : String → FetchResult) (password : String)
    (hfail : fetch ⟨(sha1 password).data.take 5⟩ = FetchResult.networkError ∨
             ∃ status, fetch ⟨(sha1 password).data.take 5⟩ = FetchResult.httpError status) :
    (checkPasswordBreach sha1 fetch password).1.breached = false ∧
    (checkPasswordBreach sha1 fetch password).1.error =
      some "Unable to verify password breach status" ∧
    (checkPasswordBreach sha1 fetch password).2 ≠ [] ∧
    ∀ threshold : Nat,
      (validatePasswordNotBreached sha1 fetch password threshold).1 =
        { valid := true, error := none, breachCount := none } := by
  rcases hfail with h | ⟨status, h⟩ <;>
    refine ⟨?_, ?_, ?_, fun threshold => ?_⟩ <;>
      simp [checkPasswordBreach, validatePasswordNotBreached, h]

/-- C6 witness: a network error on the lookup leaves a concrete password
accepted with the error marker set. -/
theorem C6_breach_check_fails_open_witness :
    (checkPasswordBreach (fun _ => "ABCDE12345") (fun _ => FetchResult.networkError) "Secret1!").1.breached = false ∧
    (checkPasswordBreach (fun _ => "ABCDE12345") (fun _ => FetchResult.networkError) "Secret1!").1.error =
      some "Unable to verify password breach status" ∧
    (checkPasswordBreach (fun _ => "ABCDE12345") (fun _ => FetchResult.networkError) "Secret1!").2 ≠ [] ∧
    ∀ threshold : Nat,
      (validatePasswordNotBreached (fun _ => "ABCDE12345") (fun _ => FetchResult.networkError) "Secret1!" threshold).1 =
        { valid := true, error := none, breachCount := none } :=
  C6_breach_check_fails_open (fun _ => "ABCDE12345") (fun _ => FetchResult.networkError)
    "Secret1!" (Or.inl rfl)

/-- C7 counterexample: on GET /auth/me with an invalid (non-mismatch) bearer
token the handler returns the generic 401 but records no
TOKEN_VALIDATION_FAILED audit entry, contrary to the claim that every
bearer-authenticated route records one. -/
theorem C7_me_counterexample :
    (meHandler (fun _ => none) [] (some "Bearer sometoken") "1.2.3.4" "ua").1 =
      HandlerResponse.err 401 "Invalid or expired token" ∧
    (SecurityEventType.TOKEN_VALIDATION_FAILED, SeverityLevel.medium) ∉
      (meHandler (fun _ => none) [] (some "Bearer sometoken") "1.2.3.4" "ua").2 := by
  decide

/-- C7 amended: for a bearer token that is invalid for a reason other than
context mismatch, GET /auth/validate records a TOKEN_VALIDATION_FAILED
(medium) audit entry and returns the generic 401, while GET /auth/me
returns the same generic 401 without recording any audit entry. -/
theorem C7_token_validation_audit (decode : String → Option JWTPayload)
    (users : List UserDoc) (authHeader : Option String) (tok ip ua : String)
    (hextract : extractTokenFromHeader authHeader = some tok)
    (hdec : decode tok = none) :
    validateHandler decode users authHeader ip ua =
      (HandlerResponse.err 401 "Invalid or expired token",
       [(SecurityEventType.TOKEN_VALIDATION_FAILED, SeverityLevel.medium)]) ∧
    meHandler decode users authHeader ip ua =
      (HandlerResponse.err 401 "Invalid or expired token", []) := by
  unfold validateHandler meHandler
  rw [hextract]
  simp [verifyAccessTokenWithContext, hdec]

/-- C7 witness: the amended statement at a concrete expired-token request. -/
theorem C7_token_validation_audit_witness :
    validateHandler (fun _ => none) [] (some "Bearer deadtoken") "9.9.9.9" "ua" =
      (HandlerResponse.err 401 "Invalid or expired token",
       [(SecurityEventType.TOKEN_VALIDATION_FAILED, SeverityLevel.medium)]) ∧
    meHandler (fun _ => none) [] (some "Bearer deadtoken") "9.9.9.9" "ua" =
      (HandlerResponse.err 401 "Invalid or expired token", []) :=
  C7_token_validation_audit (fun _ => none) [] (some "Bearer deadtoken")
    "deadtoken" "9.9.9.9" "ua" (by decide) rfl

/-- C1: at the failing input — an existing unlocked account with nine
LOGIN_FAILED entries for its email inside the 24-hour window (so the tenth
failure makes the daily count reach 10) — the login route answers plain
invalid-credentials, the account record stays unlocked, and no
ACCOUNT_LOCKED entry is recorded: the route calls trackFailedLogin without
a userId, so the lock branch never runs. -/
theorem C1_tenth_failure_does_not_lock :
    getFailedLoginAttempts (List.replicate 9 (aliceFailEntry 99000000))
      "alice@example.com" 1440 100000000 + 1 = 10 ∧
    (loginHandler (fun pw h => pw = h)
      ⟨[aliceUser], List.replicate 9 (aliceFailEntry 99000000), [], []⟩
      "alice@example.com" "wrong" "8.8.8.8" "ua" "fresh" 100000000).2 =
      LoginResponse.invalidCredentials ∧
    (∀ u ∈ (loginHandler (fun pw h => pw = h)
      ⟨[aliceUser], List.replicate 9 (aliceFailEntry 99000000), [], []⟩
      "alice@example.com" "wrong" "8.8.8.8" "ua" "fresh" 100000000).1.users,
      u.locked = false) ∧
    (∀ e ∈ (loginHandler (fun pw h => pw = h)
      ⟨[aliceUser], List.replicate 9 (aliceFailEntry 99000000), [], []⟩
      "alice@example.com" "wrong" "8.8.8.8" "ua" "fresh" 100000000).1.auditLog,
      e.eventType ≠ SecurityEventType.ACCOUNT_LOCKED) := by
  decide

/-- C10 counterexample: revoking the same token a second time at a later
clock reading rewrites revokedAt, so the store after two revocations is not
the store after one — strict idempotence fails across differing timestamps. -/
theorem C10_second_revoke_changes_state :
    revokeRefreshToken (revokeRefreshToken [tokenDocT] "T" 1) "T" 2 ≠
      revokeRefreshToken [tokenDocT] "T" 1 := by
  decide

/-- C10 amended: POST /auth/logout answers success for every non-empty
refresh token string; revoking an unknown token leaves the store unchanged;
and revocation is idempotent at a fixed timestamp — a second revoke at a
later time differs only by rewriting revokedAt. -/
theorem C10_logout_revoke_idempotent (store : List RefreshTokenDoc)
    (t : String) (now : Nat) (st : ServerState) (rt : String) (hrt : rt ≠ "") :
    revokeRefreshToken (revokeRefreshToken store t now) t now =
      revokeRefreshToken store t now ∧
    ((∀ d ∈ store, d.token ≠ t) → revokeRefreshToken store t now = store) ∧
    (logoutHandler st (some rt) now).2 = LogoutResponse.ok "Logged out successfully" ∧
    (logoutHandler st (some rt) now).1 =
      { st with refreshTokens := revokeRefreshToken st.refreshTokens rt now } := by
  refine ⟨?_, ?_, ?_, ?_⟩
  · unfold revokeRefreshToken
    exact updateFirst_idem (fun d => decide (d.token = t))
      (fun d => { d with revoked := true, revokedAt := some now })
      (fun x => rfl) (fun x => rfl) store
  · intro h
    refine updateFirst_no_match _ _ store (fun x hx => ?_)
    simp [h x hx]
  · simp [logoutHandler, hrt]
  · simp [logoutHandler, hrt]

/-- C10 witness: the amended statement at a concrete one-token store. -/
theorem C10_logout_revoke_idempotent_witness :
    revokeRefreshToken (revokeRefreshToken [tokenDocT] "T" 5) "T" 5 =
      revokeRefreshToken [tokenDocT] "T" 5 ∧
    ((∀ d ∈ [tokenDocT], d.token ≠ "T") →
      revokeRefreshToken [tokenDocT] "T" 5 = [tokenDocT]) ∧
    (logoutHandler ⟨[], [], [], []⟩ (some "neverIssued") 5).2 =
      LogoutResponse.ok "Logged out successfully" ∧
    (logoutHandler ⟨[], [], [], []⟩ (some "neverIssued") 5).1 =
      { (⟨[], [], [], []⟩ : ServerState) with
        refreshTokens := revokeRefreshToken ([] : List RefreshTokenDoc) "neverIssued" 5 } :=
  C10_logout_revoke_idempotent [tokenDocT] "T" 5 ⟨[], [], [], []⟩ "neverIssued" (by decide)

/-- When the 15-minute email count or IP count including the current attempt
reaches its threshold, trackFailedLogin (invoked without a userId, as the
login route does) reports blocked and records the LOGIN_BLOCKED critical
entry. -/
theorem trackFailedLogin_blocked (st : ServerState) (email ip ua : String) (now : Nat)
    (hc : 5 ≤ getFailedLoginAttempts st.auditLog email 15 now + 1 ∨
          10 ≤ getFailedLoginAttemptsByIP st.auditLog ip 15 now + 1) :
    (trackFailedLogin st email ip ua none now).2.blocked = true ∧
    ({ eventType := SecurityEventType.LOGIN_BLOCKED, severity := SeverityLevel.critical,
       userId := none, email := some email, ipAddress := some ip, userAgent := some ua,
       timestamp := now, resolved := false } : AuditLogEntry) ∈
      (trackFailedLogin st email ip ua none now).1.auditLog := by
  simp only [trackFailedLogin, logSecurityEvent]
  rw [if_pos hc]
  refine ⟨rfl, ?_⟩
  simp [List.mem_append]

/-- C3 counterexample: after five failed logins for one email inside the
15-minute window, a sixth attempt carrying the correct password is not
rate-limited — it succeeds, because the route consults the abuse tracker
only after password verification fails. -/
theorem C3_sixth_attempt_correct_password_succeeds :
    getFailedLoginAttempts
      (⟨[eveUser], List.replicate 5 (eveFailEntry 99940000), [], []⟩ : ServerState).auditLog
      "eve@example.com" 15 100000000 = 5 ∧
    (loginHandler (fun pw h => pw = h)
      ⟨[eveUser], List.replicate 5 (eveFailEntry 99940000), [], []⟩
      "eve@example.com" "pw" "9.9.9.9" "ua" "fresh" 100000000).2 =
      LoginResponse.ok "u2" ∧
    (loginHandler (fun pw h => pw = h)
      ⟨[eveUser], List.replicate 5 (eveFailEntry 99940000), [], []⟩
      "eve@example.com" "pw" "9.9.9.9" "ua" "fresh" 100000000).2 ≠
      LoginResponse.tooManyAttempts := by
  decide

/-- C3 amended: on every FAILED login attempt (unknown user or wrong
password on an unlocked account), when the 15-minute email-scoped count
including the current attempt reaches 5 or the IP-scoped count reaches 10,
the route answers the rate-limited rejection (429), distinct from the
invalid-credentials response, and a LOGIN_BLOCKED critical entry is
recorded; an attempt with the correct password is not subject to this
check. -/
theorem C3_soft_block_on_failed_attempts (verify : String → String → Bool)
    (st : ServerState) (email password ip ua fresh : String) (now : Nat)
    (hemail : ¬ trimStr email = "") (hpw : ¬ password = "")
    (hcount : 5 ≤ getFailedLoginAttempts st.auditLog email 15 now + 1 ∨
              10 ≤ getFailedLoginAttemptsByIP st.auditLog ip 15 now + 1)
    (hfail : ∀ u, findUserByEmail st.users email = some u →
      u.locked = false ∧ verify password u.passwordHash = false) :
    (loginHandler verify st email password ip ua fresh now).2 = LoginResponse.tooManyAttempts ∧
    ({ eventType := SecurityEventType.LOGIN_BLOCKED, severity := SeverityLevel.critical,
       userId := none, email := some email, ipAddress := some ip, userAgent := some ua,
       timestamp := now, resolved := false } : AuditLogEntry) ∈
      (loginHandler verify st email password ip ua fresh now).1.auditLog ∧
    LoginResponse.tooManyAttempts ≠ LoginResponse.invalidCredentials := by
  have hb := trackFailedLogin_blocked st email ip ua now hcount
  unfold loginHandler
  rw [if_neg hemail, if_neg hpw]
  cases hu : findUserByEmail st.users email with
  | none =>
    simp only [hb.1, if_true]
    exact ⟨trivial, hb.2, by decide⟩
  | some u =>
    have hlock := (hfail u hu).1
    have hverify := (hfail u hu).2
    simp only [hlock, hverify, Bool.false_eq_true, if_false, hb.1, if_true]
    exact ⟨trivial, hb.2, by decide⟩

/-- C3 witness: a fifth consecutive failure for one email is blocked with
the LOGIN_BLOCKED critical entry recorded. -/
theorem C3_soft_block_on_failed_attempts_witness :
    (loginHandler (fun pw h => pw = h)
      ⟨[], List.replicate 4 (eveFailEntry 99940000), [], []⟩
      "eve@example.com" "whatever" "9.9.9.9" "ua" "fresh" 100000000).2 =
      LoginResponse.tooManyAttempts ∧
    ({ eventType := SecurityEventType.LOGIN_BLOCKED, severity := SeverityLevel.critical,
       userId := none, email := some "eve@example.com", ipAddress := some "9.9.9.9",
       userAgent := some "ua", timestamp := 100000000, resolved := false } : AuditLogEntry) ∈
      (loginHandler (fun pw h => pw = h)
        ⟨[], List.replicate 4 (eveFailEntry 99940000), [], []⟩
        "eve@example.com" "whatever" "9.9.9.9" "ua" "fresh" 100000000).1.auditLog ∧
    LoginResponse.tooManyAttempts ≠ LoginResponse.invalidCredentials :=
  C3_soft_block_on_failed_attempts (fun pw h => pw = h)
    ⟨[], List.replicate 4 (eveFailEntry 99940000), [], []⟩
    "eve@example.com" "whatever" "9.9.9.9" "ua" "fresh" 100000000
    (by decide) (by decide) (by decide) (fun u h => Option.noConfusion h)

/-- C2 counterexample: under the interleaving find1, find2, revoke1,
create1, revoke2, create2, two concurrent rotations of the same token both
return a freshly created record — not exactly one of them succeeds, because
the implementation reads then writes in two separate store operations
instead of one conditional update. -/
theorem C2_concurrent_rotations_both_succeed :
    (rotateRefreshTokenTwoInterleaved [tokenDocT] "T"
      ⟨"u1", "T2", 2000, none, none⟩ ⟨"u1", "T3", 2000, none, none⟩ 10).2.1.isSome = true ∧
    (rotateRefreshTokenTwoInterleaved [tokenDocT] "T"
      ⟨"u1", "T2", 2000, none, none⟩ ⟨"u1", "T3", 2000, none, none⟩ 10).2.2.isSome = true := by
  decide

/-- C2 amended: sequentially, rotateRefreshToken returns null and creates
nothing when the old token is not currently valid; when it is valid it
revokes it and creates and returns the replacement; and after a successful
rotation every later sequential rotation of the same token value returns
null (assuming the token value occurs at most once in the store and the
replacement carries a different value). The concurrent exactly-one-winner
guarantee does not hold (see the interleaving counterexample). -/
theorem C2_rotate_single_use (store : List RefreshTokenDoc) (T : String)
    (d : CreateRefreshTokenInput) (now : Nat)
    (huniq : (store.filter (fun x => x.token = T)).length ≤ 1)
    (hnew : d.token ≠ T) :
    (findValidRefreshToken store T now = none →
      rotateRefreshToken store T d now = (store, none)) ∧
    (∀ old, findValidRefreshToken store T now = some old →
      rotateRefreshToken store T d now =
        (revokeRefreshToken store T now ++
          [{ id := (revokeRefreshToken store T now).length, userId := d.userId,
             token := d.token, expiresAt := d.expiresAt, revoked := false,
             revokedAt := none, createdAt := now, ipAddress := d.ipAddress,
             userAgent := d.userAgent }],
         some { id := (revokeRefreshToken store T now).length, userId := d.userId,
                token := d.token, expiresAt := d.expiresAt, revoked := false,
                revokedAt := none, createdAt := now, ipAddress := d.ipAddress,
                userAgent := d.userAgent })) ∧
    (∀ st2 r, rotateRefreshToken store T d now = (st2, some r) →
      ∀ d2 now2, rotateRefreshToken st2 T d2 now2 = (st2, none)) := by
  refine ⟨?_, ?_, ?_⟩
  · intro h
    simp [rotateRefreshToken, h]
  · intro old h
    simp [rotateRefreshToken, h, createRefreshToken]
  · intro st2 r hrot d2 now2
    cases hfind : findValidRefreshToken store T now with
    | none => simp [rotateRefreshToken, hfind] at hrot
    | some old =>
      have hq : ∀ y ∈ revokeRefreshToken store T now,
          (decide (y.token = T) && !y.revoked) = false := by
        unfold revokeRefreshToken
        exact updateFirst_not_sat (fun v => decide (v.token = T))
          (fun v => decide (v.token = T) && !v.revoked)
          (fun v => { v with revoked := true, revokedAt := some now })
          (fun v => by simp) store
          (fun v _ hqv => by
            simp only [Bool.and_eq_true] at hqv
            exact hqv.1) huniq
      have hst2 : revokeRefreshToken store T now ++
          [{ id := (revokeRefreshToken store T now).length, userId := d.userId,
             token := d.token, expiresAt := d.expiresAt, revoked := false,
             revokedAt := none, createdAt := now, ipAddress := d.ipAddress,
             userAgent := d.userAgent }] = st2 := by
        simp [rotateRefreshToken, hfind, createRefreshToken] at hrot
        exact hrot.1
      have hnone : findValidRefreshToken st2 T now2 = none := by
        rw [← hst2]
        unfold findValidRefreshToken
        rw [List.find?_eq_none]
        intro x hx
        rcases List.mem_append.mp hx with hx | hx
        · have hqx := hq x hx
          intro hpred
          obtain ⟨hxt, hxrev, _⟩ := of_decide_eq_true hpred
          simp [hxt, hxrev] at hqx
        · rw [List.mem_singleton.mp hx]
          intro hpred
          exact hnew (of_decide_eq_true hpred).1
      simp [rotateRefreshToken, hnone]

/-- C2 witness: rotating a concrete one-token store succeeds once, and the
subsequent sequential rotation of the same token value returns null and
leaves the store unchanged. -/
theorem C2_rotate_single_use_witness :
    rotateRefreshToken
      (rotateRefreshToken [tokenDocT] "T" ⟨"u1", "T2", 2000, none, none⟩ 10).1
      "T" ⟨"u1", "T3", 3000, none, none⟩ 20 =
    ((rotateRefreshToken [tokenDocT] "T" ⟨"u1", "T2", 2000, none, none⟩ 10).1, none) := by
  have h := (C2_rotate_single_use [tokenDocT] "T" ⟨"u1", "T2", 2000, none, none⟩ 10
    (by decide) (by decide)).2.2
  exact h (rotateRefreshToken [tokenDocT] "T" ⟨"u1", "T2", 2000, none, none⟩ 10).1
    { id := 1, userId := "u1", token := "T2", expiresAt := 2000, revoked := false,
      revokedAt := none, createdAt := 10, ipAddress := none, userAgent := none }
    (by decide) ⟨"u1", "T3", 3000, none, none⟩ 20

/-- C5: findPasswordResetToken never returns a used token record; and for a
valid unused unexpired reset token (with the token value and record id each
occurring at most once in the store) and an acceptable new password, the
reset succeeds, marks every record carrying that token value used, and any
later attempt with the same token string answers invalid-token — even at a
time before the token expiry. -/
theorem C5_reset_token_single_use (sha1 : String → String)
    (fetch : String → FetchResult) (hash : String → String) (st : ServerState)
    (tok password ip ua : String) (now : Nat) (rt : PasswordResetTokenDoc)
    (hfound : findPasswordResetToken st.resetTokens tok = some rt)
    (htokuniq : (st.resetTokens.filter (fun x => x.token = tok)).length ≤ 1)
    (hiduniq : (st.resetTokens.filter (fun x => x.id = rt.id)).length ≤ 1)
    (hnotexp : ¬ rt.expiresAt < now)
    (htok : ¬ tok = "") (hpw : ¬ password = "")
    (hstrong : (validatePasswordStrength password).1 = true)
    (hbreach : (validatePasswordNotBreached sha1 fetch password 1).1.valid = true) :
    (∀ (store : List PasswordResetTokenDoc) (t : String) (d : PasswordResetTokenDoc),
      d.used = true → findPasswordResetToken store t ≠ some d) ∧
    (resetPasswordHandler sha1 fetch hash st tok password ip ua now).2 =
      ResetPasswordResponse.ok ∧
    (∀ y ∈ (resetPasswordHandler sha1 fetch hash st tok password ip ua now).1.resetTokens,
      y.token = tok → y.used = true) ∧
    (∀ ip2 ua2 : String, ∀ now2 : Nat,
      (resetPasswordHandler sha1 fetch hash
        (resetPasswordHandler sha1 fetch hash st tok password ip ua now).1
        tok password ip2 ua2 now2).2 = ResetPasswordResponse.invalidToken) := by
  have hmem : rt ∈ st.resetTokens := List.mem_of_find?_eq_some hfound
  have hpr : rt.token = tok ∧ rt.used = false := by
    have := List.find?_some hfound
    exact of_decide_eq_true this
  have hused : ∀ y ∈ markTokenAsUsed st.resetTokens rt.id,
      (decide (y.token = tok) && !y.used) = false := by
    unfold markTokenAsUsed
    refine updateFirst_not_sat (fun v => decide (v.id = rt.id))
      (fun v => decide (v.token = tok) && !v.used)
      (fun v => { v with used := true })
      (fun v => by simp) st.resetTokens (fun v hv hqv => ?_) hiduniq
    simp only [Bool.and_eq_true, decide_eq_true_eq, Bool.not_eq_true'] at hqv
    have hveq : v = rt :=
      filter_le_one_unique (fun x => decide (x.token = tok)) st.resetTokens htokuniq
        hv hmem (by simp [hqv.1]) (by simp [hpr.1])
    simp [hveq]
  have heval : resetPasswordHandler sha1 fetch hash st tok password ip ua now =
      ({ st with users := updatePassword st.users rt.userId (hash password),
                 resetTokens := markTokenAsUsed st.resetTokens rt.id,
                 auditLog := logSecurityEvent st.auditLog
                   SecurityEventType.PASSWORD_RESET_SUCCESS SeverityLevel.medium
                   (some rt.userId) ((findUserById st.users rt.userId).map (fun u => u.email))
                   (some ip) (some ua) now },
       ResetPasswordResponse.ok) := by
    simp only [resetPasswordHandler, hfound]
    rw [if_neg htok, if_neg hpw, if_neg (by simp [hstrong]), if_neg (by simp [hbreach]),
      if_neg hnotexp]
  refine ⟨?_, ?_, ?_, ?_⟩
  · intro store t d hd hcontra
    unfold findPasswordResetToken at hcontra
    have hb := List.find?_some hcontra
    have hb2 := of_decide_eq_true hb
    rw [hd] at hb2
    exact absurd hb2.2 (by simp)
  · rw [heval]
  · rw [heval]
    intro y hy hyt
    have := hused y hy
    rw [hyt] at this
    simp at this
    exact this
  · intro ip2 ua2 now2
    rw [heval]
    have hnone : findPasswordResetToken (markTokenAsUsed st.resetTokens rt.id) tok = none := by
      unfold findPasswordResetToken
      rw [List.find?_eq_none]
      intro x hx hpred
      have hqx := hused x hx
      obtain ⟨hxt, hxu⟩ := of_decide_eq_true hpred
      simp [hxt, hxu] at hqx
    simp only [resetPasswordHandler, hnone]
    rw [if_neg htok, if_neg hpw, if_neg (by simp [hstrong]), if_neg (by simp [hbreach])]

/-- C5 witness: a concrete unused unexpired token resets once and is
rejected as invalid on reuse. -/
theorem C5_reset_token_single_use_witness :
    (∀ (store : List PasswordResetTokenDoc) (t : String) (d : PasswordResetTokenDoc),
      d.used = true → findPasswordResetToken store t ≠ some d) ∧
    (resetPasswordHandler (fun _ => "") (fun _ => FetchResult.networkError) (fun p => p)
      ⟨[], [], [], [{ id := 0, userId := "u1", token := "RT", expiresAt := 1000000,
                      used := false, createdAt := 0 }]⟩
      "RT" "Str0ng!Pass9" "1.1.1.1" "ua" 10).2 = ResetPasswordResponse.ok ∧
    (∀ y ∈ (resetPasswordHandler (fun _ => "") (fun _ => FetchResult.networkError) (fun p => p)
      ⟨[], [], [], [{ id := 0, userId := "u1", token := "RT", expiresAt := 1000000,
                      used := false, createdAt := 0 }]⟩
      "RT" "Str0ng!Pass9" "1.1.1.1" "ua" 10).1.resetTokens,
      y.token = "RT" → y.used = true) ∧
    (∀ ip2 ua2 : String, ∀ now2 : Nat,
      (resetPasswordHandler (fun _ => "") (fun _ => FetchResult.networkError) (fun p => p)
        (resetPasswordHandler (fun _ => "") (fun _ => FetchResult.networkError) (fun p => p)
          ⟨[], [], [], [{ id := 0, userId := "u1", token := "RT", expiresAt := 1000000,
                          used := false, createdAt := 0 }]⟩
          "RT" "Str0ng!Pass9" "1.1.1.1" "ua" 10).1
        "RT" "Str0ng!Pass9" ip2 ua2 now2).2 = ResetPasswordResponse.invalidToken) :=
  C5_reset_token_single_use (fun _ => "") (fun _ => FetchResult.networkError) (fun p => p)
    ⟨[], [], [], [{ id := 0, userId := "u1", token := "RT", expiresAt := 1000000,
                    used := false, createdAt := 0 }]⟩
    "RT" "Str0ng!Pass9" "1.1.1.1" "ua" 10
    { id := 0, userId := "u1", token := "RT", expiresAt := 1000000,
      used := false, createdAt := 0 }
    (by decide) (by decide) (by decide) (by decide) (by decide) (by decide)
    (by decide) (by decide)

/-- The block decision and reason of trackPasswordResetRequest are a
function of the audit log window counts alone. -/
theorem trackPasswordResetRequest_result (st : ServerState) (e ip ua : String)
    (ex : Bool) (now : Nat) :
    (trackPasswordResetRequest st e ip ua ex now).2 =
      (if 3 < getPasswordResetRequestsByEmail st.auditLog e 60 now + 1 ∨
          5 < getPasswordResetRequestsByIP st.auditLog ip 60 now + 1 then
        (true, some (if 3 < getPasswordResetRequestsByEmail st.auditLog e 60 now + 1 then
          "Too many password reset requests for this email. Please try again in 1 hour."
        else
          "Too many password reset requests from this location. Please try again in 1 hour."))
      else (false, none)) := by
  simp only [trackPasswordResetRequest]
  split_ifs <;> rfl

/-- trackPasswordResetRequest only appends audit entries; the other three
collections are untouched. -/
theorem trackPasswordResetRequest_keeps (st : ServerState) (e ip ua : String)
    (ex : Bool) (now : Nat) :
    (trackPasswordResetRequest st e ip ua ex now).1.users = st.users ∧
    (trackPasswordResetRequest st e ip ua ex now).1.resetTokens = st.resetTokens ∧
    (trackPasswordResetRequest st e ip ua ex now).1.refreshTokens = st.refreshTokens := by
  simp only [trackPasswordResetRequest]
  split_ifs <;> exact ⟨rfl, rfl, rfl⟩

/-- C9: the HTTP response of POST /auth/forgot-password is a function of the
audit log and the inputs alone — two stores differing arbitrarily in their
accounts produce identical responses; when the input validates and the
rate limiter does not block, the response is the fixed generic success
message, and the side effects (reset-token creation, email sending) happen
exactly when the account exists. -/
theorem C9_forgot_password_enumeration_safe
    (users1 users2 : List UserDoc) (log : List AuditLogEntry)
    (rts : List RefreshTokenDoc) (prts : List PasswordResetTokenDoc)
    (email ip ua fresh : String) (now : Nat) :
    (forgotPasswordHandler ⟨users1, log, rts, prts⟩ email ip ua fresh now).response =
      (forgotPasswordHandler ⟨users2, log, rts, prts⟩ email ip ua fresh now).response ∧
    (¬ trimStr email = "" →
      ¬(3 < getPasswordResetRequestsByEmail log email 60 now + 1 ∨
        5 < getPasswordResetRequestsByIP log ip 60 now + 1) →
      ((forgotPasswordHandler ⟨users1, log, rts, prts⟩ email ip ua fresh now).response =
        ForgotPasswordResponse.ok
          "If an account exists with this email, a password reset link has been sent" ∧
       ((forgotPasswordHandler ⟨users1, log, rts, prts⟩ email ip ua fresh now).emailSent = true ↔
        (findUserByEmail users1 email).isSome = true) ∧
       ((forgotPasswordHandler ⟨users1, log, rts, prts⟩ email ip ua fresh now).state.resetTokens ≠ prts ↔
        (findUserByEmail users1 email).isSome = true))) := by
  by_cases hemail : trimStr email = ""
  · constructor
    · simp [forgotPasswordHandler, hemail]
    · intro h
      exact absurd hemail h
  · have hr1 := trackPasswordResetRequest_result ⟨users1, log, rts, prts⟩ email ip ua
      (findUserByEmail users1 email).isSome now
    have hr2 := trackPasswordResetRequest_result ⟨users2, log, rts, prts⟩ email ip ua
      (findUserByEmail users2 email).isSome now
    have hk1 := trackPasswordResetRequest_keeps ⟨users1, log, rts, prts⟩ email ip ua
      (findUserByEmail users1 email).isSome now
    dsimp only at hr1 hr2 hk1
    constructor
    · simp only [forgotPasswordHandler]
      rw [if_neg hemail, if_neg hemail, hr1, hr2]
      by_cases hb : 3 < getPasswordResetRequestsByEmail log email 60 now + 1 ∨
          5 < getPasswordResetRequestsByIP log ip 60 now + 1
      · rw [if_pos hb]
        rfl
      · rw [if_neg hb]
        cases findUserByEmail users1 email <;> cases findUserByEmail users2 email <;> rfl
    · intro _ hnb
      refine ⟨?_, ?_, ?_⟩
      · simp only [forgotPasswordHandler]
        rw [if_neg hemail, hr1, if_neg hnb]
        cases findUserByEmail users1 email <;> rfl
      · simp only [forgotPasswordHandler]
        rw [if_neg hemail, hr1, if_neg hnb]
        cases findUserByEmail users1 email <;> simp
      · simp only [forgotPasswordHandler]
        rw [if_neg hemail, hr1, if_neg hnb]
        cases findUserByEmail users1 email with
        | none =>
          have hk := (trackPasswordResetRequest_keeps ⟨users1, log, rts, prts⟩
            email ip ua false now).2.1
          dsimp only at hk
          simp [hk]
        | some u =>
          have hk := (trackPasswordResetRequest_keeps ⟨users1, log, rts, prts⟩
            email ip ua true now).2.1
          dsimp only at hk
          simp only [Option.isSome_some, iff_true, createPasswordResetToken]
          simp only [hk]
          intro h
          have hlen := congrArg List.length h
          simp at hlen

/-- C9 witness: the non-blocked generic response with and without an
account present for the email. -/
theorem C9_forgot_password_enumeration_safe_witness :
    (forgotPasswordHandler ⟨[aliceUser], [], [], []⟩
      "alice@example.com" "7.7.7.7" "ua" "freshtok" 5000).response =
      (forgotPasswordHandler ⟨[], [], [], []⟩
        "alice@example.com" "7.7.7.7" "ua" "freshtok" 5000).response ∧
    (¬ trimStr "alice@example.com" = "" →
      ¬(3 < getPasswordResetRequestsByEmail [] "alice@example.com" 60 5000 + 1 ∨
        5 < getPasswordResetRequestsByIP [] "7.7.7.7" 60 5000 + 1) →
      ((forgotPasswordHandler ⟨[aliceUser], [], [], []⟩
          "alice@example.com" "7.7.7.7" "ua" "freshtok" 5000).response =
        ForgotPasswordResponse.ok
          "If an account exists with this email, a password reset link has been sent" ∧
       ((forgotPasswordHandler ⟨[aliceUser], [], [], []⟩
          "alice@example.com" "7.7.7.7" "ua" "freshtok" 5000).emailSent = true ↔
        (findUserByEmail [aliceUser] "alice@example.com").isSome = true) ∧
       ((forgotPasswordHandler ⟨[aliceUser], [], [], []⟩
          "alice@example.com" "7.7.7.7" "ua" "freshtok" 5000).state.resetTokens ≠ [] ↔
        (findUserByEmail [aliceUser] "alice@example.com").isSome = true))) :=
  C9_forgot_password_enumeration_safe [aliceUser] [] [] [] []
    "alice@example.com" "7.7.7.7" "ua" "freshtok" 5000

end BTS
